import Mathlib

/-!
# Wehe command-line client: verification of spec claims

A shallow embedding of the Wehe client's core components (test
orchestrator, throughput analyzer, side-channel protocol, replay-trace
parser) in Lean 4, with theorems settling the specification claims.

Modelling conventions:
* Go `float64` values are embedded as exact rationals (`ℚ`).  Where Go
  floating-point arithmetic can produce non-finite values (NaN, ±Inf) —
  namely division — we use `GoFloat := Option ℚ`, with `none` standing
  for any non-finite value.  The claims settled here depend only on
  order/equality structure, never on rounding.
* Go `time.Duration` is an `int64` count of nanoseconds; embedded as `ℤ`.
* Go runtime panics (index out of range, slice bounds, nil dereference)
  are embedded as an explicit `crash` outcome (or `none` for functions
  whose only abnormal exit is a panic).
* Network and file I/O are environmental: functions take the bytes the
  peer would deliver (or the already-unmarshalled JSON document) as an
  argument.
-/

namespace Wehe

/-- Go `float64` with non-finite values collapsed to `none`.  All values
arising in the claims are finite rationals except the results of
division, where Go produces NaN (`0.0/0.0`) or ±Inf (`x/0.0`), all
embedded as `none`. -/
def GoFloat : Type := Option ℚ

instance : DecidableEq GoFloat := inferInstanceAs (DecidableEq (Option ℚ))

instance : Repr GoFloat := inferInstanceAs (Repr (Option ℚ))

/-- Finite float literal. -/
def GoFloat.fin (q : ℚ) : GoFloat := some q

/-- Go float64 addition: finite + finite is finite; anything involving a
non-finite operand is collapsed to `none`. -/
def gadd : GoFloat → GoFloat → GoFloat
  | some x, some y => some (x + y)
  | _, _ => none

/-- Go float64 division: division by zero yields a non-finite value
(NaN for `0/0`, ±Inf otherwise), embedded as `none`. -/
def gdiv : GoFloat → GoFloat → GoFloat
  | some x, some y => if y = 0 then none else some (x / y)
  | _, _ => none

/-! ## Test orchestrator (internal/testorchestrator)

Embedded from `NewTestOrchestrator` and `determineDifferentiation`.
The `test`, `testDir` and `servers` fields of the Go struct are
environmental (file paths and live connections) and do not enter the
differentiation logic; the fields that do are embedded one-for-one. -/

/-- Server-computed statistics returned by AnalyzeTest
(`testdata.KS2Result`). -/
structure KS2Result where
  Area0var : ℚ
  KS2pVal : ℚ
  OriginalAvgThroughput : ℚ
  RandomAvgThroughput : ℚ
deriving DecidableEq, Repr

/-- The configuration fields consumed by `NewTestOrchestrator`
(`config.Config`; `AreaThreshold` and `KS2PValueThreshold` are Go
`int`s validated to 0..100 at config load). -/
structure Config where
  UseDefaultThresholds : Bool
  AreaThreshold : ℤ
  KS2PValueThreshold : ℤ
deriving DecidableEq, Repr

/-- Per-server verdict record (`testorchestrator.TestResult`). -/
structure TestResult where
  ServerHostname : String
  Result : String
  KS2Res : KS2Result
  AreaThreshold : ℚ
  KS2PValueThreshold : ℚ
deriving DecidableEq, Repr

/-- The orchestrator state touched by the differentiation logic
(`testorchestrator.TestOrchestrator`). -/
structure TestOrchestrator where
  replayID : ℤ
  isLastReplay : Bool
  samplesPerReplay : ℤ
  useDefaultThresholds : Bool
  areaTestThreshold : ℚ
  ks2PValThreshold : ℚ
  testResults : List TestResult
deriving DecidableEq, Repr

/-- `NewTestOrchestrator`: `areaTestThreshold = float64(cfg.AreaThreshold)/100.0`,
`ks2PValThreshold = float64(cfg.KS2PValueThreshold)/100.0`, empty results. -/
def newTestOrchestrator (cfg : Config) : TestOrchestrator where
  replayID := 0
  isLastReplay := false
  samplesPerReplay := 0
  useDefaultThresholds := cfg.UseDefaultThresholds
  areaTestThreshold := (cfg.AreaThreshold : ℚ) / 100
  ks2PValThreshold := (cfg.KS2PValueThreshold : ℚ) / 100
  testResults := []

/-- `determineDifferentiation`: if the default-thresholds switch is on
and either average throughput exceeds 10 Mbps, the orchestrator's
`areaTestThreshold` field is overwritten with 0.3 (a mutation of the
receiver, visible to later calls); then the verdict is computed from
`aboveArea := |Area0var| >= areaTestThreshold` and
`belowP := KS2pVal < ks2PValThreshold`, and a `TestResult` is appended. -/
def determineDifferentiation (t : TestOrchestrator) (hostname : String)
    (ks2Result : KS2Result) : TestOrchestrator :=
  let t :=
    if t.useDefaultThresholds ∧
        (ks2Result.OriginalAvgThroughput > 10 ∨ ks2Result.RandomAvgThroughput > 10) then
      { t with areaTestThreshold := (3 : ℚ) / 10 }  -- the source literal 0.3
    else t
  let aboveArea := decide (|ks2Result.Area0var| ≥ t.areaTestThreshold)
  let belowP := decide (ks2Result.KS2pVal < t.ks2PValThreshold)
  let status :=
    if aboveArea then
      if belowP then "Differentiation Detected" else "Results Inconclusive"
    else "No Differentiation"
  { t with
    testResults := t.testResults ++
      [{ ServerHostname := hostname
         Result := status
         KS2Res := ks2Result
         AreaThreshold := t.areaTestThreshold
         KS2PValueThreshold := t.ks2PValThreshold }] }

/-- A sequence of `determineDifferentiation` calls (the loop in
`analyzeTest`, possibly spanning several servers), applied in order. -/
def runDeterminations (t : TestOrchestrator) (calls : List (String × KS2Result)) :
    TestOrchestrator :=
  calls.foldl (fun acc c => determineDifferentiation acc c.1 c.2) t

/-! ## Throughput analyzer (internal/analyzer)

Embedded from `NewAnalyzer`, `createSample`, `Stop`, `AddBytesRead` and
`GetAverageThroughput`.  The wall-clock fields `startTime` and
`ReplayElapsedTime` are environmental (set from `time.Now()`) and are
not part of the embedded state.  `Stop`'s slice-trimming expressions
`xs[:len(xs)-1]` panic when `len(xs) == 0`, so `stop` returns an
`Option`, with `none` for that panic. -/

/-- `time.Duration.Seconds()`: the duration (an `int64` nanosecond
count) as a float64 number of seconds. -/
def durationSeconds (ns : ℤ) : ℚ := (ns : ℚ) / 1000000000

/-- The analyzer state (`analyzer.Analyzer`). -/
structure Analyzer where
  bytesRead : ℤ
  sampleNumber : ℤ
  sampleDurationNs : ℤ
  SampleTimes : List ℚ
  samples : List ℤ
  Throughputs : List GoFloat
deriving DecidableEq, Repr

/-- `NewAnalyzer`: `sampleDuration = replayLength / time.Duration(numberOfSamples)`
(Go integer division of the nanosecond counts, truncated toward zero;
Go panics when `numberOfSamples == 0`, so theorems assume a nonzero
sample count). -/
def newAnalyzer (replayLengthNs : ℤ) (numberOfSamples : ℤ) : Analyzer where
  bytesRead := 0
  sampleNumber := 0
  sampleDurationNs := replayLengthNs.tdiv numberOfSamples
  SampleTimes := []
  samples := []
  Throughputs := []

/-- `AddBytesRead`. -/
def addBytesRead (a : Analyzer) (n : ℤ) : Analyzer :=
  { a with bytesRead := a.bytesRead + n }

/-- `createSample` (one timer tick): increment the sample counter,
record the sample's wall offset and the running byte counter, and zero
the counter. -/
def createSample (a : Analyzer) : Analyzer :=
  let n := a.sampleNumber + 1
  { a with
    sampleNumber := n
    SampleTimes := a.SampleTimes ++ [(n : ℚ) * durationSeconds a.sampleDurationNs]
    samples := a.samples ++ [a.bytesRead]
    bytesRead := 0 }

/-- One sampling interval of a replay: the `AddBytesRead` calls made by
the receive loop during the interval, then the timer tick. -/
def tick (a : Analyzer) (batch : List ℤ) : Analyzer :=
  createSample (batch.foldl addBytesRead a)

/-- A whole replay as seen by the analyzer: one byte batch per timer
tick, in order. -/
def runTicks (a : Analyzer) (batches : List (List ℤ)) : Analyzer :=
  batches.foldl tick a

/-- `Stop`: recompute `Throughputs` from `samples`
(`bytes / 125000 / sampleDuration.Seconds()`), then trim the final
entry of `Throughputs`, `SampleTimes` and `samples`.  Each trim is
`xs[:len(xs)-1]`, which panics (`none`) when the series is empty. -/
def Analyzer.stop (a : Analyzer) : Option Analyzer :=
  let tputs := a.samples.map fun (s : ℤ) =>
    gdiv (gdiv (GoFloat.fin (s : ℚ)) (GoFloat.fin 125000))
      (GoFloat.fin (durationSeconds a.sampleDurationNs))
  if a.samples = [] then none           -- Throughputs[:len-1] panics (len-1 = -1)
  else if a.SampleTimes = [] then none  -- SampleTimes[:len-1] panics
  else some { a with
    Throughputs := tputs.dropLast
    SampleTimes := a.SampleTimes.dropLast
    samples := a.samples.dropLast }

/-- `GetAverageThroughput`: `sum / float64(len(Throughputs))`.  With an
empty series this is Go's `0.0/0.0 = NaN` (`none` here). -/
def getAverageThroughput (a : Analyzer) : GoFloat :=
  gdiv (a.Throughputs.foldl gadd (GoFloat.fin 0)) (GoFloat.fin (a.Throughputs.length : ℚ))

/-! ## Common outcome type for Go functions

Go functions in this code base exit a call in one of three ways:
returning a value (nil error), returning a non-nil `error`, or a
runtime panic. -/

/-- Result of a Go call: normal return, non-nil error, or runtime panic. -/
inductive GoResult (α : Type) where
  | ok (val : α)
  | goErr (msg : String)
  | crash
deriving DecidableEq, Repr

/-! ## Side-channel protocol (internal/network/sidechannel.go)

The opcode enum is a Go `const` block using `iota`:
```
const (
    invalid opcode = 255        // ConstSpec 0
    oldDeclareID opcode = 0x30  // ConstSpec 1
    receiveID opcode = iota     // iota = ConstSpec index = 2
    ask4permission              // 3 (repeats "= iota")
    mobileStats                 // 4
    throughputs                 // 5
    declareReplay               // 6
    analyzeTest                 // 7
)
```
so the values the Go compiler assigns to `receiveID..analyzeTest` are
2..7 (NOT 0x31..0x36): `iota` restarts at 0 for each const block and
equals the index of the ConstSpec line, regardless of explicitly
initialized predecessors. -/

def invalidOpcode : ℕ := 255
def oldDeclareID : ℕ := 0x30
def receiveID : ℕ := 2
def ask4permission : ℕ := 3
def mobileStats : ℕ := 4
def throughputsOp : ℕ := 5
def declareReplayOp : ℕ := 6
def analyzeTestOp : ℕ := 7

def okResponse : ℕ := 0
def errorResponse : ℕ := 1

/-- A Go string's bytes (side-channel bodies are ASCII, where UTF-8
bytes and code points coincide). -/
def stringBytes (s : String) : List ℕ := s.toList.map Char.toNat

/-- Helper for `goSplitOn`: split a character list at every separator
occurrence (`acc` holds the current field, reversed). -/
def goSplitAux (sep : Char) : List Char → List Char → List (List Char)
  | [], acc => [acc.reverse]
  | c :: cs, acc =>
    if c = sep then acc.reverse :: goSplitAux sep cs []
    else goSplitAux sep cs (c :: acc)

/-- Go `strings.Split` with a single-character separator (all three
separators used by this code base — `";"`, `"-"`, `"\""` — are single
characters).  `Split("", sep) = [""]`, like Go. -/
def goSplitOn (s : String) (sep : Char) : List String :=
  (goSplitAux sep s.toList []).map String.mk

/-- Bytes back to a string (ASCII). -/
def bytesToString (l : List ℕ) : String := String.mk (l.map Char.ofNat)

/-- `binary.BigEndian.PutUint32`: the four big-endian bytes of a
32-bit word. -/
def putUint32BE (x : ℕ) : List ℕ :=
  [x / 2 ^ 24 % 256, x / 2 ^ 16 % 256, x / 2 ^ 8 % 256, x % 256]

/-- The request frame `sendAndReceive` (and `SendID`) puts on the wire:
`PutUint32(hdr, uint32(len(message))); hdr[0] = byte(op)`, then the
header and the body are written back to back. -/
def sendRequestFrame (op : ℕ) (message : String) : List ℕ :=
  let body := stringBytes message
  let hdr := putUint32BE (body.length % 2 ^ 32)
  (op % 256 :: hdr.tail) ++ body

/-- The response-reading half of `sendAndReceive`: read 4 bytes, take
them as a 32-bit big-endian length `L`, read `L` bytes, then branch on
`resp[0]` (which panics when `L = 0`): code 0 returns the rest of the
body, code 1 returns the error "Server unable to process request.",
anything else "Unknown error.".  Short reads are `io.ReadFull` errors.
`stream` is the byte sequence the server delivers. -/
def recvResponse (stream : List ℕ) : GoResult String :=
  match stream with
  | b0 :: b1 :: b2 :: b3 :: rest =>
    let messageLength := b0 * 2 ^ 24 + b1 * 2 ^ 16 + b2 * 2 ^ 8 + b3
    if rest.length < messageLength then .goErr "unexpected EOF"
    else
      match rest.take messageLength with
      | [] => .crash  -- resp[0] with len(resp) = 0: index out of range
      | code :: body =>
        if code = okResponse then .ok (bytesToString body)
        else if code = errorResponse then .goErr "Server unable to process request."
        else .goErr "Unknown error."
  | _ => .goErr "unexpected EOF"

/-- `network.SideChannel.Ask4Permission`: `sendAndReceive(ask4permission, "")`,
then split the response on `";"` and require at least two fields. -/
def scAsk4Permission (stream : List ℕ) : GoResult (List String) :=
  match recvResponse stream with
  | .ok resp =>
    let permission := goSplitOn resp ';'
    if permission.length < 2 then
      .goErr ("Received improperly formatted permission: " ++ resp ++ "\n")
    else .ok permission
  | .goErr e => .goErr e
  | .crash => .crash

/-- `strconv.Atoi` on a decimal digit string (optional sign; errors on
empty or non-digit input; the `int64` range is not modelled). -/
def goAtoi (s : String) : Option ℤ :=
  let digitsVal : List Char → Option ℕ := fun ds =>
    if ds = [] then none
    else ds.foldl (fun acc c =>
      match acc with
      | none => none
      | some n => if c.isDigit then some (n * 10 + (c.toNat - 48)) else none) (some 0)
  match s.toList with
  | '-' :: ds => (digitsVal ds).map (fun n => -(n : ℤ))
  | '+' :: ds => (digitsVal ds).map (fun n => (n : ℤ))
  | ds => (digitsVal ds).map (fun n => (n : ℤ))

/-- The permission failure reasons of `serverhandler` (constants
`ask4Permission*Msg` and the `switch` in `Server.Ask4Permission`). -/
def permissionDeniedReason (code : String) : String :=
  if code = "1" then "Replay requested does not exist on server."
  else if code = "2" then "A client with this IP is already connected. Try again later."
  else if code = "3" then "Server is low on resources Try again later."
  else if code = "4" then "Unable to determine server resources. Try again later."
  else "Unknown server error: " ++ code

/-- `serverhandler.Server.Ask4Permission`: on a nil-error reply, field 0
selects OK (`"0"`, parse `samplesPerReplay`) or the permission-denied
switch (`"1"`); any side-channel error (including the generic
`errorResponse` error) is returned as-is, so the reply body of an
`errorResponse` frame never reaches this switch. -/
def srvAsk4Permission (stream : List ℕ) : GoResult ℤ :=
  match scAsk4Permission stream with
  | .ok permission =>
    match permission with
    | p0 :: p1 :: _ =>
      if p0 = "0" then
        match goAtoi p1 with
        | some n => .ok n
        | none => .goErr ("strconv.Atoi: parsing " ++ p1 ++ ": invalid syntax")
      else if p0 = "1" then .goErr (permissionDeniedReason p1 ++ "\n")
      else .goErr ("Unknown Ask4Permission status code: " ++ p0 ++ "\n")
    | _ => .crash  -- unreachable: scAsk4Permission guarantees length ≥ 2
  | .goErr e => .goErr e
  | .crash => .crash

/-- A response frame as the server would put it on the wire: 32-bit
big-endian length of (response code + body), then the code byte, then
the body.  Used to build concrete test inputs. -/
def mkResponseStream (code : ℕ) (body : String) : List ℕ :=
  putUint32BE (1 + (stringBytes body).length) ++ code :: stringBytes body

/-! ## Side-channel connection (`NewSideChannel`) and the orchestrator run

`NewSideChannel` dials `<ip>:55556`; `dialOk` is the environmental
outcome of `net.Dial`. -/

/-- `network.SideChannel`: `conn` is `none` when the Go field holds a
nil connection. -/
structure SideChannel where
  id : ℤ
  conn : Option Unit
deriving DecidableEq, Repr

/-- `NewSideChannel`: on dial failure the Go code executes
`return SideChannel{}, nil` — the zero-value struct and a NIL error.
The second component is the returned `error` value. -/
def newSideChannel (id : ℤ) (dialOk : Bool) : SideChannel × Option String :=
  if dialOk then ({ id := id, conn := some () }, none)
  else ({ id := 0, conn := none }, none)

/-- `serverhandler.Server.ConnectToSideChannel`: store the side channel
unless `NewSideChannel` returned an error.  Returns the stored channel
(the Go struct field after the call) and the returned `error`. -/
def connectToSideChannelSrv (id : ℤ) (dialOk : Bool) : SideChannel × Option String :=
  let r := newSideChannel id dialOk
  match r.2 with
  | some e => (r.1, some e)  -- srv.SideChannel not assigned on this path
  | none => (r.1, none)

/-- The orchestrator's `connectToSideChannel` loop: connect each server
in turn (ids 0, 1, ...), returning the first error, `none` if every
server "connected". -/
def connectLoop : ℤ → List Bool → Option String
  | _, [] => none
  | id, d :: ds =>
    match (connectToSideChannelSrv id d).2 with
    | some e => some e
    | none => connectLoop (id + 1) ds

/-- Outcome of `TestOrchestrator.Run`: normal return with the test
results, an error return, or a panic. -/
inductive RunOutcome where
  | success (results : List TestResult)
  | failure (msg : String)
  | crashed
deriving DecidableEq, Repr

/-- The environment of one single-server `TestOrchestrator.Run` call:
the outcome of each I/O step (`sendIDRes` covers the public-IP fetch
and the `ReceiveID` write — a `crash` there models Go's panic on
writing to a nil connection).  `restOutcome` abstracts the outcome of
the states after a granted permission (replays, throughput reports,
declare, analysis) — the claims settled against this model do not look
past `ask4Permission`. -/
structure RunEnv where
  replayInfo1Err : Option String
  dialOk : Bool
  sendIDRes : GoResult Unit
  permStream : List ℕ
  restOutcome : RunOutcome
deriving DecidableEq, Repr

/-- `TestOrchestrator.Run`, single server, through `ask4Permission`:
load replay info (before the `defer to.cleanUp()`), connect the side
channel, `sendID`, `ask4Permission`; any error returns early.  The
second component records whether the deferred `cleanUp` ran (Go runs
deferred calls on both error returns and panics). -/
def runModel (env : RunEnv) : RunOutcome × Bool :=
  match env.replayInfo1Err with
  | some e => (.failure e, false)  -- before the defer: no cleanup
  | none =>
    -- defer to.cleanUp() is registered here
    match connectLoop 0 [env.dialOk] with
    | some e => (.failure e, true)
    | none =>
      match env.sendIDRes with
      | .goErr e => (.failure e, true)
      | .crash => (.crashed, true)  -- e.g. a Write on a nil conn; defers still run
      | .ok _ =>
        match srvAsk4Permission env.permStream with
        | .goErr e => (.failure e, true)
        | .crash => (.crashed, true)
        | .ok _ => (env.restOutcome, true)

/-! ## Replay-trace loader (internal/replay/test.go)

`ParseReplayJSON` reads the replay file and unmarshals the top-level
JSON array; those I/O and JSON layers are environmental, so the
embedding takes the successfully typed document: the packet records of
index 0, the CS-pair strings of index 2, and the raw text of index 3. -/

/-- `replay.ReplayFilePacket` (pointer fields are `Option`; a Go nil
pointer is `none`). -/
structure ReplayFilePacket where
  CSPair : String
  Timestamp : ℚ
  Payload : String
  ResponseLength : Option ℤ
  ResponseHash : Option String
  PEnd : Option Bool
deriving DecidableEq, Repr

/-- `replay.CSPair`. -/
structure CSPair where
  ClientIP : String
  ClientPort : ℤ
  ServerIP : String
  ServerPort : ℤ
deriving DecidableEq, Repr

/-- `replay.TCPPacket` (payload already hex-decoded into bytes). -/
structure TCPPacket where
  CSPair : String
  Timestamp : ℚ
  Payload : List ℕ
  ResponseLength : ℤ
  ResponseHash : String
deriving DecidableEq, Repr

/-- `replay.UDPPacket`. -/
structure UDPPacket where
  CSPair : String
  Timestamp : ℚ
  Payload : List ℕ
  PEnd : Bool
deriving DecidableEq, Repr

/-- `replay.Packet`: tagged variant {TCP | UDP}. -/
inductive Packet where
  | tcp (p : TCPPacket)
  | udp (p : UDPPacket)
deriving DecidableEq, Repr

/-- `replay.ReplayInfo`. -/
structure ReplayInfo where
  Packets : List Packet
  CSPair : CSPair
  ReplayName : String
  IsTCP : Bool
deriving DecidableEq, Repr

/-- Value of a hex digit, as accepted by `encoding/hex`. -/
def hexDigitVal (c : Char) : Option ℕ :=
  if '0' ≤ c ∧ c ≤ '9' then some (c.toNat - 48)
  else if 'a' ≤ c ∧ c ≤ 'f' then some (c.toNat - 87)
  else if 'A' ≤ c ∧ c ≤ 'F' then some (c.toNat - 55)
  else none

/-- `hex.DecodeString`: errors (`none`) on a non-hex byte or an odd
length. -/
def decodeHex : List Char → Option (List ℕ)
  | [] => some []
  | [_] => none
  | c1 :: c2 :: rest =>
    match hexDigitVal c1, hexDigitVal c2, decodeHex rest with
    | some h1, some h2, some bytes => some ((16 * h1 + h2) :: bytes)
    | _, _, _ => none

/-- Index of the last occurrence of `c`, scanning from position `i`
(`strings.LastIndex` returns -1, i.e. `none`, when absent). -/
def lastIndexAux (c : Char) : List Char → ℕ → Option ℕ
  | [], _ => none
  | x :: xs, i =>
    match lastIndexAux c xs (i + 1) with
    | some j => some j
    | none => if x = c then some i else none

/-- `strings.LastIndex(s, ".")`. -/
def lastDotIndex (s : String) : Option ℕ := lastIndexAux '.' s.toList 0

/-- One side of a CS-pair: `s[:lastDot]` and `Atoi(s[lastDot+1:])`.
When the side contains no dot, `LastIndex` is -1 and the Go slice
expression `s[:-1]` panics. -/
def parseCSPairSide (s : String) : GoResult (String × ℤ) :=
  match lastDotIndex s with
  | none => .crash  -- s[:-1]: slice bounds out of range
  | some i =>
    let ip := String.mk (s.toList.take i)
    let portStr := String.mk (s.toList.drop (i + 1))
    match goAtoi portStr with
    | some port => .ok (ip, port)
    | none => .goErr ("strconv.Atoi: parsing " ++ portStr ++ ": invalid syntax")

/-- `replay.newCSPair`: split on `"-"`, require exactly two halves, and
parse `<ip>.<port>` out of each half. -/
def newCSPair (csPair : String) : GoResult CSPair :=
  match goSplitOn csPair '-' with
  | [c, s] =>
    match parseCSPairSide c with
    | .ok (cip, cport) =>
      match parseCSPairSide s with
      | .ok (sip, sport) =>
        .ok { ClientIP := cip, ClientPort := cport, ServerIP := sip, ServerPort := sport }
      | .goErr e => .goErr e
      | .crash => .crash
    | .goErr e => .goErr e
    | .crash => .crash
  | _ =>
    .goErr ("CSPair '" ++ csPair ++
      "' is invalid. Should be in format <client_ip>.<client_port>-<server_ip>.<server_port>")

/-- Error returned by `encoding/hex` on a bad payload (the exact
message carries the offending byte; only its presence matters here). -/
def hexDecodeErrMsg : String := "encoding/hex: invalid byte or length"

/-- The TCP loop of `ParseReplayJSON`: dereference `response_len`
(panics on a nil pointer), default a missing `response_hash` to `""`,
and hex-decode the payload (`newTCPPacket`). -/
def buildTCPPackets : List ReplayFilePacket → GoResult (List Packet)
  | [] => .ok []
  | p :: ps =>
    match p.ResponseLength with
    | none => .crash  -- *replayFilePacket.ResponseLength: nil dereference
    | some rl =>
      let hash := match p.ResponseHash with
        | none => ""
        | some h => h
      match decodeHex p.Payload.toList with
      | none => .goErr hexDecodeErrMsg
      | some payload =>
        match buildTCPPackets ps with
        | .ok rest =>
          .ok (.tcp { CSPair := p.CSPair, Timestamp := p.Timestamp, Payload := payload,
                      ResponseLength := rl, ResponseHash := hash } :: rest)
        | .goErr e => .goErr e
        | .crash => .crash

/-- The UDP loop of `ParseReplayJSON`: hex-decode the payload and
dereference `end` (panics on a nil pointer) (`newUDPPacket`). -/
def buildUDPPackets : List ReplayFilePacket → GoResult (List Packet)
  | [] => .ok []
  | p :: ps =>
    match decodeHex p.Payload.toList with
    | none => .goErr hexDecodeErrMsg
    | some payload =>
      match p.PEnd with
      | none => .crash  -- *replayFilePacket.End: nil dereference
      | some e =>
        match buildUDPPackets ps with
        | .ok rest =>
          .ok (.udp { CSPair := p.CSPair, Timestamp := p.Timestamp, Payload := payload,
                      PEnd := e } :: rest)
        | .goErr e => .goErr e
        | .crash => .crash

/-- The successfully typed replay document: index 0 (packet records),
index 2 (CS-pair strings, TCP only) and the raw text of index 3. -/
structure ReplayDoc where
  packets : List ReplayFilePacket
  csPairs : List String
  replayNameRaw : String
deriving DecidableEq, Repr

/-- `replay.ParseReplayJSON`, from the decoded document onward:
`replayFilePackets[0].ResponseLength` decides TCP vs UDP and PANICS
when the packet list is empty; the packet loops run; the CS-pair
comes from `csPairs[0]` (TCP, panics when empty) or the first packet's
`CSPair` string (UDP); the replay name is
`strings.Split(string(jsonData[3]), "\"")[1]` (panics when index 3
contains no quote). -/
def parseReplayJSON (doc : ReplayDoc) : GoResult ReplayInfo :=
  match doc.packets with
  | [] => .crash  -- replayFilePackets[0]: index out of range
  | p0 :: _ =>
    let isTCP := p0.ResponseLength.isSome
    let packetsResult := if isTCP then buildTCPPackets doc.packets else buildUDPPackets doc.packets
    match packetsResult with
    | .goErr e => .goErr e
    | .crash => .crash
    | .ok packets =>
      let csPairResult :=
        if isTCP then
          match doc.csPairs with
          | [] => .crash  -- csPairs[0]: index out of range
          | c :: _ => newCSPair c
        else newCSPair p0.CSPair
      match csPairResult with
      | .goErr e => .goErr e
      | .crash => .crash
      | .ok csPair =>
        match goSplitOn doc.replayNameRaw '\"' with
        | _ :: name :: _ =>
          .ok { Packets := packets, CSPair := csPair, ReplayName := name, IsTCP := isTCP }
        | _ => .crash  -- strings.Split(...)[1]: index out of range

/-! ## Spec-side vocabulary

`effectiveAreaThreshold` renders the spec's §4.7 description of the
area threshold used for one verdict; the theorems below compare the
code's behavior against it. -/

/-- The spec's per-verdict effective area threshold: 0.3 when the
default-thresholds switch is on and either average throughput exceeds
10 Mbps, the orchestrator's current threshold otherwise. -/
def effectiveAreaThreshold (t : TestOrchestrator) (r : KS2Result) : ℚ :=
  if t.useDefaultThresholds ∧ (r.OriginalAvgThroughput > 10 ∨ r.RandomAvgThroughput > 10) then (3 : ℚ) / 10
  else t.areaTestThreshold

/-- The `TestResult` record that one `determineDifferentiation` call
with current p-value threshold `αP` and effective area threshold `αA`
appends (used to state the theorems; proved equal to the code's
behavior below). -/
def verdictRecord (hostname : String) (r : KS2Result) (αA αP : ℚ) : TestResult where
  ServerHostname := hostname
  Result :=
    if |r.Area0var| ≥ αA then
      if r.KS2pVal < αP then "Differentiation Detected" else "Results Inconclusive"
    else "No Differentiation"
  KS2Res := r
  AreaThreshold := αA
  KS2PValueThreshold := αP

end Wehe

/-! ## Theorems -/

namespace Wehe

/-- One `determineDifferentiation` call: sets the area threshold to the
effective one and appends the corresponding verdict record. -/
theorem determineDifferentiation_spec (t : TestOrchestrator) (h : String) (r : KS2Result) :
    determineDifferentiation t h r =
      { t with
        areaTestThreshold := effectiveAreaThreshold t r
        testResults := t.testResults ++
          [verdictRecord h r (effectiveAreaThreshold t r) t.ks2PValThreshold] } := by
  by_cases hc : t.useDefaultThresholds ∧
      (r.OriginalAvgThroughput > 10 ∨ r.RandomAvgThroughput > 10) <;>
    simp [determineDifferentiation, effectiveAreaThreshold, verdictRecord, hc]

/-- `runDeterminations` never touches the p-value threshold or the
default-thresholds switch. -/
theorem runDeterminations_preserved (calls : List (String × KS2Result)) :
    ∀ t : TestOrchestrator,
      (runDeterminations t calls).ks2PValThreshold = t.ks2PValThreshold ∧
      (runDeterminations t calls).useDefaultThresholds = t.useDefaultThresholds := by
  induction calls with
  | nil => intro t; exact ⟨rfl, rfl⟩
  | cons c cs ih =>
    intro t
    have := ih (determineDifferentiation t c.1 c.2)
    simpa [runDeterminations, determineDifferentiation_spec] using this

/-- Once the orchestrator's area threshold sits at 0.3, every further
`determineDifferentiation` call keeps it at 0.3 and appends a verdict
computed against 0.3. -/
theorem runDeterminations_pegged (c : ℚ) (later : List (String × KS2Result)) :
    ∀ t : TestOrchestrator, t.areaTestThreshold = (3 : ℚ) / 10 → t.ks2PValThreshold = c →
      (runDeterminations t later).areaTestThreshold = (3 : ℚ) / 10 ∧
      (runDeterminations t later).testResults
        = t.testResults ++ later.map (fun p => verdictRecord p.1 p.2 ((3 : ℚ) / 10) c) := by
  induction later with
  | nil => intro t h1 _; simpa [runDeterminations] using h1
  | cons p ps ih =>
    intro t h1 h2
    have heff : effectiveAreaThreshold t p.2 = (3 : ℚ) / 10 := by
      unfold effectiveAreaThreshold; split <;> simp [h1]
    have hstep : runDeterminations t (p :: ps)
        = runDeterminations (determineDifferentiation t p.1 p.2) ps := rfl
    have ih' := ih (determineDifferentiation t p.1 p.2)
      (by rw [determineDifferentiation_spec]; simpa using heff)
      (by rw [determineDifferentiation_spec]; simpa using h2)
    rw [hstep]
    refine ⟨ih'.1, ?_⟩
    rw [ih'.2, determineDifferentiation_spec]
    simp [heff, h2]

/-- C1: for every `KS2Result` a server returns (at any point of the
per-server analysis loop of a test), `determineDifferentiation`
records "No Differentiation" when `|Area0var|` is below the effective
area threshold, otherwise "Differentiation Detected" when `KS2pVal`
is below `KS2PValueThreshold/100`, and "Results Inconclusive"
otherwise. -/
theorem c1_determineDifferentiation_verdict (cfg : Config)
    (prior : List (String × KS2Result)) (hostname : String) (r : KS2Result) :
    ∃ tr : TestResult,
      (determineDifferentiation (runDeterminations (newTestOrchestrator cfg) prior)
          hostname r).testResults
        = (runDeterminations (newTestOrchestrator cfg) prior).testResults ++ [tr]
      ∧ tr.ServerHostname = hostname ∧ tr.KS2Res = r
      ∧ tr.Result =
          (if |r.Area0var| <
              (determineDifferentiation (runDeterminations (newTestOrchestrator cfg) prior)
                hostname r).areaTestThreshold
           then "No Differentiation"
           else if r.KS2pVal < (cfg.KS2PValueThreshold : ℚ) / 100 then "Differentiation Detected"
           else "Results Inconclusive") := by
  have hks : (runDeterminations (newTestOrchestrator cfg) prior).ks2PValThreshold
      = (cfg.KS2PValueThreshold : ℚ) / 100 :=
    (runDeterminations_preserved prior _).1.trans rfl
  refine ⟨verdictRecord hostname r
    (effectiveAreaThreshold (runDeterminations (newTestOrchestrator cfg) prior) r)
    (runDeterminations (newTestOrchestrator cfg) prior).ks2PValThreshold, ?_, rfl, rfl, ?_⟩
  · rw [determineDifferentiation_spec]
  · rw [determineDifferentiation_spec, hks]
    simp only [verdictRecord]
    by_cases h1 : |r.Area0var| ≥
        effectiveAreaThreshold (runDeterminations (newTestOrchestrator cfg) prior) r
    · rw [if_pos h1, if_neg (not_lt.mpr h1)]
    · rw [if_neg h1, if_pos (lt_of_not_ge h1)]

/-- C2 counterexample: with `area_threshold = 50` and defaults on, a
first verdict at 20 Mbps drops the stored threshold to 0.3; a second
verdict whose own throughputs are 1 Mbps (≤ 10) is then judged
against 0.3, and its recorded `AreaThreshold` is 0.3 — not
`cfg.AreaThreshold/100 = 0.5` as the claim states (the claim would
make `|0.4| < 0.5` a "No Differentiation" verdict). -/
theorem c2_area_threshold_not_restored :
    ((determineDifferentiation
        (determineDifferentiation
          (newTestOrchestrator
            { UseDefaultThresholds := true, AreaThreshold := 50, KS2PValueThreshold := 1 })
          "server1"
          { Area0var := 1 / 10, KS2pVal := 1 / 2, OriginalAvgThroughput := 20, RandomAvgThroughput := 20 })
        "server2"
        { Area0var := 2 / 5, KS2pVal := 1 / 2, OriginalAvgThroughput := 1, RandomAvgThroughput := 1 }).testResults.getLast?.map
        (fun tr => (tr.AreaThreshold, tr.Result)))
      = some ((3 : ℚ) / 10, "Results Inconclusive")
    ∧ (3 : ℚ) / 10 ≠ (50 : ℚ) / 100
    ∧ "Results Inconclusive" ≠ "No Differentiation" := by
  refine ⟨?_, by norm_num, by decide⟩
  have habs : |(2 : ℚ) / 5| = 2 / 5 := abs_of_nonneg (by norm_num)
  simp [determineDifferentiation_spec, effectiveAreaThreshold, verdictRecord,
    newTestOrchestrator, habs]
  norm_num [habs]

/-- C2 (amended): the stored area threshold starts at
`cfg.AreaThreshold/100`; each verdict is computed against the
effective threshold — 0.3 when `useDefaultThresholds` and a
throughput exceeds 10 Mbps, the orchestrator's *current* stored
threshold otherwise (which is `cfg.AreaThreshold/100` only until some
verdict of the test triggers the reduction, the reduction being
stored in place and never restored). -/
theorem c2_effective_area_threshold (cfg : Config) (t : TestOrchestrator)
    (hostname : String) (r : KS2Result) :
    (newTestOrchestrator cfg).areaTestThreshold = (cfg.AreaThreshold : ℚ) / 100
    ∧ (determineDifferentiation t hostname r).areaTestThreshold = effectiveAreaThreshold t r
    ∧ (determineDifferentiation t hostname r).testResults.getLast?
        = some (verdictRecord hostname r (effectiveAreaThreshold t r) t.ks2PValThreshold) := by
  refine ⟨rfl, ?_, ?_⟩
  · rw [determineDifferentiation_spec]
  · rw [determineDifferentiation_spec]; simp

/-- C10: after any `determineDifferentiation` call of a test in which
the default-thresholds switch is on and either throughput exceeds
10 Mbps, the stored area threshold is 0.3 and every later call of the
same test judges against 0.3 and records 0.3, whatever its own
throughputs are. -/
theorem c10_area_threshold_sticky (cfg : Config)
    (prior later : List (String × KS2Result)) (hostname : String) (r : KS2Result)
    (hud : cfg.UseDefaultThresholds = true)
    (ht : r.OriginalAvgThroughput > 10 ∨ r.RandomAvgThroughput > 10) :
    (determineDifferentiation (runDeterminations (newTestOrchestrator cfg) prior)
        hostname r).areaTestThreshold = (3 : ℚ) / 10
    ∧ (runDeterminations
        (determineDifferentiation (runDeterminations (newTestOrchestrator cfg) prior) hostname r)
        later).testResults
      = (determineDifferentiation (runDeterminations (newTestOrchestrator cfg) prior)
          hostname r).testResults
        ++ later.map (fun p => verdictRecord p.1 p.2 ((3 : ℚ) / 10) ((cfg.KS2PValueThreshold : ℚ) / 100)) := by
  have hus : (runDeterminations (newTestOrchestrator cfg) prior).useDefaultThresholds = true :=
    (runDeterminations_preserved prior _).2.trans (by simp [newTestOrchestrator, hud])
  have hks : (runDeterminations (newTestOrchestrator cfg) prior).ks2PValThreshold
      = (cfg.KS2PValueThreshold : ℚ) / 100 :=
    (runDeterminations_preserved prior _).1.trans rfl
  have heff : effectiveAreaThreshold (runDeterminations (newTestOrchestrator cfg) prior) r
      = (3 : ℚ) / 10 := by
    unfold effectiveAreaThreshold
    rw [if_pos ⟨by simp [hus], ht⟩]
  have h1 : (determineDifferentiation (runDeterminations (newTestOrchestrator cfg) prior)
      hostname r).areaTestThreshold = (3 : ℚ) / 10 := by
    rw [determineDifferentiation_spec]; simpa using heff
  have h2 : (determineDifferentiation (runDeterminations (newTestOrchestrator cfg) prior)
      hostname r).ks2PValThreshold = (cfg.KS2PValueThreshold : ℚ) / 100 := by
    rw [determineDifferentiation_spec]; simpa using hks
  exact ⟨h1, (runDeterminations_pegged _ later _ h1 h2).2⟩

/-- C10 witness: concrete two-server test — after server 1 reports
20 Mbps, server 2's verdict (throughputs 1 Mbps) is judged and
recorded against 0.3. -/
theorem c10_area_threshold_sticky_witness :
    (runDeterminations
        (determineDifferentiation
          (runDeterminations (newTestOrchestrator
            { UseDefaultThresholds := true, AreaThreshold := 50, KS2PValueThreshold := 1 }) [])
          "s1" { Area0var := 2 / 5, KS2pVal := 1 / 2, OriginalAvgThroughput := 20, RandomAvgThroughput := 20 })
        [("s2", { Area0var := 2 / 5, KS2pVal := 1 / 2, OriginalAvgThroughput := 1, RandomAvgThroughput := 1 })]).testResults
      = (determineDifferentiation
          (runDeterminations (newTestOrchestrator
            { UseDefaultThresholds := true, AreaThreshold := 50, KS2PValueThreshold := 1 }) [])
          "s1" { Area0var := 2 / 5, KS2pVal := 1 / 2, OriginalAvgThroughput := 20, RandomAvgThroughput := 20 }).testResults
        ++ [verdictRecord "s2"
              { Area0var := 2 / 5, KS2pVal := 1 / 2, OriginalAvgThroughput := 1, RandomAvgThroughput := 1 }
              ((3 : ℚ) / 10) ((1 : ℚ) / 100)] := by
  have h := c10_area_threshold_sticky
    { UseDefaultThresholds := true, AreaThreshold := 50, KS2PValueThreshold := 1 } []
    [("s2", { Area0var := 2 / 5, KS2pVal := 1 / 2, OriginalAvgThroughput := 1, RandomAvgThroughput := 1 })]
    "s1" { Area0var := 2 / 5, KS2pVal := 1 / 2, OriginalAvgThroughput := 20, RandomAvgThroughput := 20 }
    rfl (Or.inl (by norm_num))
  simpa using h.2

/-- Folding `AddBytesRead` over a batch adds the batch total to the
byte counter. -/
theorem foldl_addBytesRead (batch : List ℤ) :
    ∀ a : Analyzer, batch.foldl addBytesRead a = { a with bytesRead := a.bytesRead + batch.sum } := by
  induction batch with
  | nil => intro a; simp
  | cons x xs ih =>
    intro a
    simp [List.foldl, addBytesRead, ih, add_assoc]

/-- State of the analyzer after the ticks of a replay: one byte-total
sample per tick, one sample time per tick, byte counter back at zero,
the sampling interval untouched and `Throughputs` untouched. -/
theorem runTicks_fields (bs : List (List ℤ)) :
    ∀ a : Analyzer, a.bytesRead = 0 →
      (runTicks a bs).samples = a.samples ++ bs.map List.sum
      ∧ (runTicks a bs).SampleTimes.length = a.SampleTimes.length + bs.length
      ∧ (runTicks a bs).sampleDurationNs = a.sampleDurationNs
      ∧ (runTicks a bs).Throughputs = a.Throughputs
      ∧ (runTicks a bs).bytesRead = 0 := by
  induction bs with
  | nil => intro a h; simp [runTicks, h]
  | cons b bs ih =>
    intro a h
    have htick : tick a b =
        { a with
          sampleNumber := a.sampleNumber + 1
          SampleTimes := a.SampleTimes ++
            [((a.sampleNumber + 1 : ℤ) : ℚ) * durationSeconds a.sampleDurationNs]
          samples := a.samples ++ [b.sum]
          bytesRead := 0 } := by
      simp [tick, foldl_addBytesRead, createSample, h]
    have hstep : runTicks a (b :: bs) = runTicks (tick a b) bs := rfl
    obtain ⟨h1, h2, h3, h4, h5⟩ := ih (tick a b) (by rw [htick])
    rw [hstep, htick] at *
    refine ⟨?_, ?_, by simpa using h3, by simpa using h4, h5⟩
    · rw [h1]; simp
    · rw [h2]; simp [List.length_append]; omega

/-- C5: if the analyzer's tick fires `N ≥ 1` times during a replay
(batch `i` being the bytes reported between ticks `i-1` and `i`),
`Stop()` succeeds and leaves exactly `N - 1` throughput entries, entry
`i` being `samples[i] / 125000 / intervalSeconds` for the
construction-time interval `replayLength / numberOfSamples`. -/
theorem c5_analyzer_trims_last_sample (L N : ℤ) (bs : List (List ℤ))
    (hN : N ≠ 0) (hbs : bs ≠ []) :
    ∃ a', (runTicks (newAnalyzer L N) bs).stop = some a'
      ∧ a'.Throughputs.length = bs.length - 1
      ∧ a'.Throughputs = (bs.map fun (b : List ℤ) =>
          gdiv (gdiv (GoFloat.fin ((b.sum : ℚ))) (GoFloat.fin 125000))
            (GoFloat.fin (durationSeconds (L.tdiv N)))).dropLast
      ∧ ∀ (i : ℕ) (b : List ℤ), bs[i]? = some b → i < bs.length - 1 →
          a'.Throughputs[i]? =
            some (gdiv (gdiv (GoFloat.fin ((b.sum : ℚ))) (GoFloat.fin 125000))
              (GoFloat.fin (durationSeconds (L.tdiv N)))) := by
  obtain ⟨h1, h2, h3, h4, h5⟩ := runTicks_fields bs (newAnalyzer L N) rfl
  set A := runTicks (newAnalyzer L N) bs with hA
  have hsamples : A.samples = bs.map List.sum := by simpa [newAnalyzer] using h1
  have hdur : A.sampleDurationNs = L.tdiv N := by simpa [newAnalyzer] using h3
  have hlen : A.SampleTimes.length = bs.length := by simpa [newAnalyzer] using h2
  have hsne : A.samples ≠ [] := by
    rw [hsamples]; simpa [List.map_eq_nil_iff] using hbs
  have htne : A.SampleTimes ≠ [] := by
    intro hc
    rw [hc] at hlen
    exact hbs (List.length_eq_zero.mp hlen.symm)
  have hstop : A.stop = some { A with
      Throughputs := (A.samples.map fun (s : ℤ) =>
        gdiv (gdiv (GoFloat.fin (s : ℚ)) (GoFloat.fin 125000))
          (GoFloat.fin (durationSeconds A.sampleDurationNs))).dropLast
      SampleTimes := A.SampleTimes.dropLast
      samples := A.samples.dropLast } := by
    simp only [Analyzer.stop]
    rw [if_neg hsne, if_neg htne]
  have hmap : (A.samples.map fun (s : ℤ) =>
      gdiv (gdiv (GoFloat.fin (s : ℚ)) (GoFloat.fin 125000))
        (GoFloat.fin (durationSeconds A.sampleDurationNs)))
      = bs.map fun (b : List ℤ) =>
          gdiv (gdiv (GoFloat.fin ((b.sum : ℚ))) (GoFloat.fin 125000))
            (GoFloat.fin (durationSeconds (L.tdiv N))) := by
    rw [hsamples, hdur, List.map_map]
    rfl
  refine ⟨_, hstop, ?_, ?_, ?_⟩
  · simp [hmap, List.length_dropLast]
  · simp [hmap]
  · intro i b hib hlt
    simp only [hmap, List.dropLast_eq_take, List.getElem?_take, List.length_map]
    rw [if_pos hlt, List.getElem?_map, hib]
    rfl

/-- C5 witness: a two-tick replay (100 bytes then 200 bytes) on a 10 s
replay sampled 10 times keeps exactly one throughput entry,
`100 / 125000 / 1`. -/
theorem c5_analyzer_trims_last_sample_witness :
    ∃ a', (runTicks (newAnalyzer 10000000000 10) [[100], [200]]).stop = some a'
      ∧ a'.Throughputs.length = 1
      ∧ a'.Throughputs = ([[100], [200]].map fun (b : List ℤ) =>
          gdiv (gdiv (GoFloat.fin ((b.sum : ℚ))) (GoFloat.fin 125000))
            (GoFloat.fin (durationSeconds ((10000000000 : ℤ).tdiv 10)))).dropLast
      ∧ ∀ (i : ℕ) (b : List ℤ), [[100], [200]][i]? = some b → i < 1 →
          a'.Throughputs[i]? =
            some (gdiv (gdiv (GoFloat.fin ((b.sum : ℚ))) (GoFloat.fin 125000))
              (GoFloat.fin (durationSeconds ((10000000000 : ℤ).tdiv 10)))) := by
  have h := c5_analyzer_trims_last_sample 10000000000 10 [[100], [200]]
    (by decide) (by decide)
  simpa using h

/-- Folding the float sum over a list of finite throughputs yields the
finite rational sum. -/
theorem foldl_gadd_fin (qs : List ℚ) :
    ∀ c : ℚ, (qs.map GoFloat.fin).foldl gadd (GoFloat.fin c) = GoFloat.fin (c + qs.sum) := by
  induction qs with
  | nil => intro c; simp [GoFloat.fin]
  | cons q qs ih =>
    intro c
    have hstep : gadd (GoFloat.fin c) (GoFloat.fin q) = GoFloat.fin (c + q) := rfl
    simp only [List.map_cons, List.foldl_cons, hstep, ih, List.sum_cons]
    ring_nf

/-- C6 counterexample: a replay whose tick fired exactly once.  After
`Stop()` the post-trim throughput series is empty and
`GetAverageThroughput()` is `0.0/0.0`, Go's NaN (`none`) — not 0 as
the claim states. -/
theorem c6_average_empty_counterexample :
    (runTicks (newAnalyzer 10000000000 10) [[1000]]).stop.map Analyzer.Throughputs = some []
    ∧ (runTicks (newAnalyzer 10000000000 10) [[1000]]).stop.map getAverageThroughput
        = some none
    ∧ (none : GoFloat) ≠ GoFloat.fin 0 := by
  refine ⟨?_, ?_, by simp [GoFloat.fin]⟩ <;>
    norm_num [runTicks, tick, createSample, addBytesRead, newAnalyzer, Analyzer.stop,
      getAverageThroughput, gdiv, gadd, durationSeconds, GoFloat.fin]

/-- C6 (amended): after `Stop()` (or in any analyzer state),
`GetAverageThroughput()` returns the arithmetic mean of the post-trim
throughput series when it is nonempty, and NaN (`0.0/0.0`, embedded
`none`) — not 0 — when it is empty. -/
theorem c6_average_throughput (a : Analyzer) :
    (a.Throughputs = [] → getAverageThroughput a = none)
    ∧ ∀ qs : List ℚ, qs ≠ [] → a.Throughputs = qs.map GoFloat.fin →
        getAverageThroughput a = GoFloat.fin (qs.sum / qs.length) := by
  constructor
  · intro h
    simp [getAverageThroughput, h, gdiv, GoFloat.fin]
  · intro qs hne h
    have hlen : ((a.Throughputs.length : ℚ)) = (qs.length : ℚ) := by
      rw [h]; simp
    have hlz : ((qs.length : ℚ)) ≠ 0 := by
      simpa [Nat.cast_eq_zero] using fun hc => hne (List.length_eq_zero.mp hc)
    have hsum : a.Throughputs.foldl gadd (GoFloat.fin 0) = GoFloat.fin qs.sum := by
      rw [h, foldl_gadd_fin]; ring_nf
    rw [getAverageThroughput, hsum, hlen]
    simp [gdiv, GoFloat.fin, hlz]

/-- C6 witness: the mean of throughput entries 2 and 4 Mbps is 3 Mbps. -/
theorem c6_average_throughput_witness :
    getAverageThroughput
      { bytesRead := 0, sampleNumber := 0, sampleDurationNs := 0, SampleTimes := [],
        samples := [], Throughputs := [GoFloat.fin 2, GoFloat.fin 4] }
      = GoFloat.fin 3 := by
  have h := (c6_average_throughput
    { bytesRead := 0, sampleNumber := 0, sampleDurationNs := 0, SampleTimes := [],
      samples := [], Throughputs := [GoFloat.fin 2, GoFloat.fin 4] }).2
    [2, 4] (by decide) rfl
  rw [h]
  norm_num [GoFloat.fin]

/-- C7 counterexample: `Stop()` is not idempotent.  On a two-tick
replay the second `Stop()` yields a different state (one more sample
trimmed); on a one-tick replay the second `Stop()` fails (Go panics
slicing `[:len-1]` with empty series). -/
theorem c7_stop_not_idempotent_counterexample :
    ((runTicks (newAnalyzer 10000000000 10) [[100], [200]]).stop.bind Analyzer.stop
      ≠ (runTicks (newAnalyzer 10000000000 10) [[100], [200]]).stop)
    ∧ (runTicks (newAnalyzer 10000000000 10) [[1000]]).stop.bind Analyzer.stop = none := by
  have htdiv : Int.tdiv (10000000000 : ℤ) 10 = 1000000000 := by decide
  constructor <;>
    simp [runTicks, tick, createSample, addBytesRead, newAnalyzer, Analyzer.stop,
      durationSeconds, GoFloat.fin, gdiv, htdiv]

/-- C7 (amended): `Stop()` is not idempotent: every successful call
strictly shrinks each series by one entry — so a second call never
returns the state unchanged — and a call made when the byte-sample
series is already empty (e.g. right after stopping a one-tick replay)
fails with a slice-bounds panic. -/
theorem c7_stop_second_call (a a' : Analyzer) (h : a.stop = some a') :
    a'.samples.length + 1 = a.samples.length
    ∧ a'.Throughputs.length + 1 = a.samples.length
    ∧ a'.SampleTimes.length + 1 = a.SampleTimes.length
    ∧ a' ≠ a
    ∧ (a'.samples = [] → a'.stop = none) := by
  have hsne : a.samples ≠ [] := by
    intro hc
    rw [Analyzer.stop, if_pos hc] at h
    exact Option.noConfusion h
  have htne : a.SampleTimes ≠ [] := by
    intro hc
    rw [Analyzer.stop, if_neg hsne, if_pos hc] at h
    exact Option.noConfusion h
  have ha' : a' = { a with
      Throughputs := (a.samples.map fun (s : ℤ) =>
        gdiv (gdiv (GoFloat.fin (s : ℚ)) (GoFloat.fin 125000))
          (GoFloat.fin (durationSeconds a.sampleDurationNs))).dropLast
      SampleTimes := a.SampleTimes.dropLast
      samples := a.samples.dropLast } := by
    rw [Analyzer.stop, if_neg hsne, if_neg htne] at h
    exact (Option.some.injEq _ _ ▸ h).symm
  have hspos : 0 < a.samples.length := List.length_pos.mpr hsne
  have htpos : 0 < a.SampleTimes.length := List.length_pos.mpr htne
  refine ⟨?_, ?_, ?_, ?_, ?_⟩
  · rw [ha']; simp [List.length_dropLast]; omega
  · rw [ha']; simp [List.length_dropLast]; omega
  · rw [ha']; simp [List.length_dropLast]; omega
  · intro hc
    have h1 : a'.samples.length + 1 = a.samples.length := by
      rw [ha']; simp [List.length_dropLast]; omega
    rw [hc] at h1
    omega
  · intro hc
    rw [Analyzer.stop, if_pos hc]

/-- C7 witness: a concrete two-sample state — `Stop()` trims one entry
from each series, changing the state; a further `Stop()` from the
resulting one-fewer-sample states eventually fails. -/
theorem c7_stop_second_call_witness :
    ({ bytesRead := 0, sampleNumber := 2, sampleDurationNs := 1000000000,
       SampleTimes := [1], samples := [100],
       Throughputs := [GoFloat.fin (1 / 1250)] } : Analyzer).samples.length + 1
      = ({ bytesRead := 0, sampleNumber := 2, sampleDurationNs := 1000000000,
           SampleTimes := [1, 2], samples := [100, 200],
           Throughputs := [] } : Analyzer).samples.length
    ∧ ({ bytesRead := 0, sampleNumber := 2, sampleDurationNs := 1000000000,
         SampleTimes := [1], samples := [100],
         Throughputs := [GoFloat.fin (1 / 1250)] } : Analyzer).Throughputs.length + 1
      = ({ bytesRead := 0, sampleNumber := 2, sampleDurationNs := 1000000000,
           SampleTimes := [1, 2], samples := [100, 200],
           Throughputs := [] } : Analyzer).samples.length
    ∧ ({ bytesRead := 0, sampleNumber := 2, sampleDurationNs := 1000000000,
         SampleTimes := [1], samples := [100],
         Throughputs := [GoFloat.fin (1 / 1250)] } : Analyzer).SampleTimes.length + 1
      = ({ bytesRead := 0, sampleNumber := 2, sampleDurationNs := 1000000000,
           SampleTimes := [1, 2], samples := [100, 200],
           Throughputs := [] } : Analyzer).SampleTimes.length
    ∧ ({ bytesRead := 0, sampleNumber := 2, sampleDurationNs := 1000000000,
         SampleTimes := [1], samples := [100],
         Throughputs := [GoFloat.fin (1 / 1250)] } : Analyzer)
      ≠ { bytesRead := 0, sampleNumber := 2, sampleDurationNs := 1000000000,
          SampleTimes := [1, 2], samples := [100, 200], Throughputs := [] }
    ∧ (({ bytesRead := 0, sampleNumber := 2, sampleDurationNs := 1000000000,
          SampleTimes := [1], samples := [100],
          Throughputs := [GoFloat.fin (1 / 1250)] } : Analyzer).samples = [] →
        ({ bytesRead := 0, sampleNumber := 2, sampleDurationNs := 1000000000,
           SampleTimes := [1], samples := [100],
           Throughputs := [GoFloat.fin (1 / 1250)] } : Analyzer).stop = none) := by
  apply c7_stop_second_call
  norm_num [Analyzer.stop, gdiv, GoFloat.fin, durationSeconds]
  exact ⟨by simp, by simp⟩


/-- Big-endian reconstruction: the four bytes of `PutUint32` decode
back to the word for any value below 2^32. -/
theorem putUint32BE_reconstruct (x : ℕ) (hx : x < 2 ^ 32) :
    (x / 2 ^ 24 % 256) * 2 ^ 24 + (x / 2 ^ 16 % 256) * 2 ^ 16
      + (x / 2 ^ 8 % 256) * 2 ^ 8 + x % 256 = x := by
  omega

/-- An `errorResponse` (0x01) reply makes `sendAndReceive` return the
generic error, whatever the reply body holds. -/
theorem recvResponse_errorResponse (bytes : List ℕ) (h : bytes.length + 1 < 2 ^ 32) :
    recvResponse (putUint32BE (1 + bytes.length) ++ errorResponse :: bytes)
      = .goErr "Server unable to process request." := by
  have hml := putUint32BE_reconstruct (1 + bytes.length) (by omega)
  simp only [putUint32BE, errorResponse, List.cons_append, List.nil_append, recvResponse, hml]
  rw [if_neg (by simp; omega)]
  have htake : (errorResponse :: bytes).take (1 + bytes.length) = errorResponse :: bytes := by
    rw [List.take_of_length_le (by simp [errorResponse]; omega)]
  simp only [errorResponse] at htake
  rw [htake]
  simp [okResponse, errorResponse]

/-- C3 (divergence witness): the Go `iota` assigns 2..7 to
`receiveID..analyzeTest`, not 0x31..0x36, so every request frame the
client sends carries a high byte in 2..7 — e.g. `Ask4Permission` puts
`[0x03, 0, 0, 0]` on the wire, and `ReceiveID` frames start with
0x02. -/
theorem c3_opcode_bytes_divergence :
    receiveID = 2 ∧ ask4permission = 3 ∧ mobileStats = 4 ∧ throughputsOp = 5
    ∧ declareReplayOp = 6 ∧ analyzeTestOp = 7
    ∧ sendRequestFrame ask4permission "" = [0x03, 0, 0, 0]
    ∧ sendRequestFrame receiveID "abc" = [0x02, 0, 0, 3, 0x61, 0x62, 0x63]
    ∧ receiveID ≠ 0x31 ∧ ask4permission ≠ 0x32 ∧ mobileStats ≠ 0x33
    ∧ throughputsOp ≠ 0x34 ∧ declareReplayOp ≠ 0x35 ∧ analyzeTestOp ≠ 0x36 := by
  decide

/-- C4 counterexample: for an `Ask4Permission` reply with response
code 0x01 and body `"1;2"` the client surfaces the generic
"Server unable to process request." error — the body is discarded by
`sendAndReceive`, so the ip-in-use denial is NOT surfaced.  The
deferred cleanup does run. -/
theorem c4_permission_denial_counterexample :
    srvAsk4Permission (mkResponseStream errorResponse "1;2")
      = .goErr "Server unable to process request."
    ∧ "Server unable to process request."
        ≠ "A client with this IP is already connected. Try again later.\n"
    ∧ runModel { replayInfo1Err := none, dialOk := true, sendIDRes := .ok (),
                 permStream := mkResponseStream errorResponse "1;2",
                 restOutcome := .success [] }
        = (.failure "Server unable to process request.", true) := by
  refine ⟨by decide, by decide, by decide⟩

/-- C4 (amended): the per-code permission-denied reasons are surfaced
when the server answers with response code 0x00 (OK) and body
`"1;<code>"`, `code ∈ {1,2,3,4}`; a reply with response code 0x01
instead yields the generic "Server unable to process request." error
whatever its body, and in either case `Run` stops with the surfaced
error after the deferred cleanup runs. -/
theorem c4_permission_denial_decoding :
    srvAsk4Permission (mkResponseStream okResponse "1;1")
      = .goErr "Replay requested does not exist on server.\n"
    ∧ srvAsk4Permission (mkResponseStream okResponse "1;2")
      = .goErr "A client with this IP is already connected. Try again later.\n"
    ∧ srvAsk4Permission (mkResponseStream okResponse "1;3")
      = .goErr "Server is low on resources Try again later.\n"
    ∧ srvAsk4Permission (mkResponseStream okResponse "1;4")
      = .goErr "Unable to determine server resources. Try again later.\n"
    ∧ (∀ body : String, (stringBytes body).length + 1 < 2 ^ 32 →
        srvAsk4Permission (mkResponseStream errorResponse body)
          = .goErr "Server unable to process request.")
    ∧ (∀ rest : RunOutcome,
        runModel { replayInfo1Err := none, dialOk := true, sendIDRes := .ok (),
                   permStream := mkResponseStream okResponse "1;2", restOutcome := rest }
          = (.failure "A client with this IP is already connected. Try again later.\n", true)) := by
  refine ⟨by decide, by decide, by decide, by decide, ?_, ?_⟩
  · intro body h
    have hrecv := recvResponse_errorResponse (stringBytes body) h
    simp only [mkResponseStream, errorResponse] at hrecv ⊢
    simp [srvAsk4Permission, scAsk4Permission, hrecv]
  · intro rest
    rfl

/-- C4 witness: the generic-error rule applied at a concrete body. -/
theorem c4_permission_denial_decoding_witness :
    srvAsk4Permission (mkResponseStream errorResponse "1;2")
      = .goErr "Server unable to process request." :=
  (c4_permission_denial_decoding.2.2.2.2.1) "1;2" (by decide)

/-- C8 (divergence witness): `ParseReplayJSON` panics — rather than
returning an `INVALID_TRACE` error — on an empty packet list
(`replayFilePackets[0]` indexes out of range) and on a CS-pair half
without a dot (`LastIndex` is -1 and the slice `s[:-1]` is out of
bounds); a bad hex payload does produce an error as claimed. -/
theorem c8_parse_crash_divergence :
    parseReplayJSON { packets := [], csPairs := [], replayNameRaw := "\"name\"" } = .crash
    ∧ parseReplayJSON
        { packets := [{ CSPair := "abc-def", Timestamp := 0, Payload := "",
                        ResponseLength := none, ResponseHash := none, PEnd := some false }],
          csPairs := [], replayNameRaw := "\"name\"" } = .crash
    ∧ parseReplayJSON
        { packets := [{ CSPair := "", Timestamp := 0, Payload := "zz",
                        ResponseLength := some 10, ResponseHash := none, PEnd := none }],
          csPairs := ["1.2.3.4.100-5.6.7.8.80"], replayNameRaw := "\"name\"" }
        = .goErr hexDecodeErrMsg
    ∧ parseReplayJSON
        { packets := [{ CSPair := "1.2.3.4.100-5.6.7.8.80", Timestamp := 0, Payload := "ff00",
                        ResponseLength := none, ResponseHash := none, PEnd := some true }],
          csPairs := [], replayNameRaw := "\"udpname\"" }
        = .ok { Packets := [.udp { CSPair := "1.2.3.4.100-5.6.7.8.80", Timestamp := 0,
                                   Payload := [255, 0], PEnd := true }],
                CSPair := { ClientIP := "1.2.3.4", ClientPort := 100,
                            ServerIP := "5.6.7.8", ServerPort := 80 },
                ReplayName := "udpname", IsTCP := false } := by
  refine ⟨by decide, by decide, by decide, by decide⟩

/-- C9 (divergence witness): `NewSideChannel` swallows the dial error
(`return SideChannel\x7b\x7d, nil`), so the connect loop never reports an
error and `TestOrchestrator.Run` proceeds past the connect step — a
test whose side-channel dial failed still runs to completion instead
of failing. -/
theorem c9_dial_error_swallowed :
    (∀ id : ℤ, (newSideChannel id false).2 = none)
    ∧ (∀ (dials : List Bool) (id : ℤ), connectLoop id dials = none)
    ∧ (∀ env : RunEnv, runModel { env with dialOk := false }
        = runModel { env with dialOk := true })
    ∧ (∀ results : List TestResult,
        runModel { replayInfo1Err := none, dialOk := false, sendIDRes := .ok (),
                   permStream := mkResponseStream okResponse "0;10",
                   restOutcome := .success results }
          = (.success results, true)) := by
  refine ⟨fun id => rfl, ?_, fun env => rfl, fun results => rfl⟩
  intro dials
  induction dials with
  | nil => intro id; rfl
  | cons d ds ih =>
    intro id
    cases d <;> simpa [connectLoop, connectToSideChannelSrv, newSideChannel] using ih (id + 1)

end Wehe